import Mathlib

/-!
Shallow embedding of `src/openid_middleware.rs` from the
ActixWeb_openIDConnect repository.

The OpenID Connect client (`crate::openid::OpenID`) is an external
collaborator; it is modelled as a record of pure functions passed as a
parameter, matching the interface the middleware consumes
(`get_authorization_url`, `user_info`, `get_token`, `verify_id_token`,
`get_logout_uri`) plus `IdToken::from_str` of the `openidconnect` crate.

Requests carry a path and a cookie jar; responses carry a status code,
headers, cookies and a body.  The middleware result distinguishes a
short-circuit (the inner handler is never invoked) from a pass-through
(the computed outcome is attached to the request extensions and the
inner handler is invoked with it).  The callback handler additionally
returns the list of client calls it performed, so that claims about
"never calls token exchange" and "verification is invoked with the
cookie nonce" can be stated.
-/

/-- The verified identity claims returned by the user-info endpoint
(`UserInfoClaims` of the `openidconnect` crate, opaque to this core). -/
structure UserInfoClaims where
  sub : String
deriving DecidableEq, Repr

/-- `serde_json::to_string` applied to a claim set, as used for the
`user_info` cookie value. -/
def serde_json_to_string (c : UserInfoClaims) : String :=
  "\x7b\"sub\":\"" ++ c.sub ++ "\"\x7d"

/-- `AuthenticatedUser` from `openid_middleware.rs`. -/
structure AuthenticatedUser where
  access : UserInfoClaims
deriving DecidableEq, Repr

/-- A parsed ID token (`crate::openid::IdToken`), opaque to this core. -/
structure IdToken where
  raw : String
deriving DecidableEq, Repr

/-- Result of `OpenID::get_authorization_url`: the authorization URL and
the nonce embedded in it. -/
structure AuthUrl where
  url : String
  nonce : String
deriving DecidableEq, Repr

/-- Result of a successful `OpenID::get_token` exchange. -/
structure TokenResponse where
  access_token : String
  id_token : String
  refresh_token : Option String
deriving DecidableEq, Repr

/-- The OpenID Connect client interface consumed by the middleware and
handlers.  Each field models one method of `crate::openid::OpenID`
(respectively `IdToken::from_str`); network and verification failures
are modelled by the `Except`/`Option` error side. -/
structure OpenID where
  get_authorization_url : String → AuthUrl
  user_info : String → Except String UserInfoClaims
  get_token : String → Except String TokenResponse
  verify_id_token : String → String → Except String UserInfoClaims
  get_logout_uri : IdToken → String
  id_token_from_str : String → Option IdToken

/-- An incoming HTTP request: its path and cookie jar. -/
structure Request where
  path : String
  cookies : List (String × String)
deriving DecidableEq, Repr

/-- `req.cookie(name)`: the first cookie with the given name. -/
def Request.cookie (req : Request) (name : String) : Option String :=
  (req.cookies.find? (fun p => p.1 == name)).map (fun p => p.2)

/-- A response cookie with the flags the source sets
(`path`, `same_site(Lax)`, `secure`). -/
structure Cookie where
  name : String
  value : String
  path : Option String := none
  same_site_lax : Bool := false
  secure : Bool := false
deriving DecidableEq, Repr

/-- An HTTP response: status code, headers, cookies and body. -/
structure HttpResponse where
  status : Nat
  headers : List (String × String)
  cookies : List Cookie
  body : String
deriving DecidableEq, Repr

/-- First header with the given name. -/
def HttpResponse.header (resp : HttpResponse) (name : String) : Option String :=
  (resp.headers.find? (fun p => p.1 == name)).map (fun p => p.2)

/-- First response cookie with the given name. -/
def HttpResponse.cookie (resp : HttpResponse) (name : String) : Option Cookie :=
  resp.cookies.find? (fun c => c.name == name)

/-- `AuthError` from `openid_middleware.rs`: the challenge-required
outcome carrying the authorization URL and the fresh nonce. -/
inductive AuthError where
  | notAuthenticated (issuer_url : String) (nonce : String)
deriving DecidableEq, Repr

/-- `AuthError::status_code`: `NotAuthenticated` maps to `FOUND` (302). -/
def AuthError.status_code : AuthError → Nat
  | .notAuthenticated _ _ => 302

/-- `AuthError::error_response`: a 302 response with body
"Not authenticated", a `nonce` cookie with path "/", and a `Location`
header set to the authorization URL. -/
def AuthError.error_response : AuthError → HttpResponse
  | .notAuthenticated issuer_url nonce =>
    { status := AuthError.status_code (.notAuthenticated issuer_url nonce)
      headers := [("Location", issuer_url)]
      cookies := [{ name := "nonce", value := nonce, path := some "/" }]
      body := "Not authenticated" }

/-- The actix `Error` values produced in this file:
`ErrorBadRequest`, `ErrorInternalServerError`, `ErrorUnauthorized`, and
an `AuthError` converted via `Into<Error>` (keeping its 302 response). -/
inductive ActixError where
  | badRequest (msg : String)
  | internalServerError (msg : String)
  | unauthorized (msg : String)
  | fromAuth (e : AuthError)
deriving DecidableEq, Repr

/-- The HTTP status code each actix error renders with. -/
def ActixError.status_code : ActixError → Nat
  | .badRequest _ => 400
  | .internalServerError _ => 500
  | .unauthorized _ => 401
  | .fromAuth e => e.status_code

deriving instance DecidableEq for Except

/-- Result of `OpenIdMiddleware::call`.  `shortCircuit e` models the
early `return Err(e.into())`: the response is `e.error_response` and the
inner handler is never invoked.  `passThrough outcome` models inserting
`outcome` into the request extensions and invoking the inner handler. -/
inductive MiddlewareResult where
  | shortCircuit (e : AuthError)
  | passThrough (outcome : Except AuthError AuthenticatedUser)
deriving DecidableEq, Repr

/-- `Result::is_err`. -/
def isErrB {ε α : Type} : Except ε α → Bool
  | .error _ => true
  | .ok _ => false

/-- `OpenIdMiddleware::call` from `openid_middleware.rs` (lines
118-157): look up the `access_token` cookie; if absent, short-circuit
with the challenge when `should_auth` holds, otherwise attach the
challenge as the outcome; if present, look up user info, degrade a
failure to the challenge, and short-circuit only when `should_auth`
holds and the lookup failed. -/
def OpenIdMiddleware.call (client : OpenID) (should_auth : Request → Bool)
    (req : Request) : MiddlewareResult :=
  let path := req.path
  let redirect_to_auth : AuthError :=
    let url := client.get_authorization_url path
    AuthError.notAuthenticated url.url url.nonce
  match req.cookie "access_token" with
  | none =>
    if should_auth req then
      MiddlewareResult.shortCircuit redirect_to_auth
    else
      MiddlewareResult.passThrough (Except.error redirect_to_auth)
  | some token =>
    let auth_user : Except AuthError AuthenticatedUser :=
      match client.user_info token with
      | Except.error _ => Except.error redirect_to_auth
      | Except.ok user_info => Except.ok ⟨user_info⟩
    if isErrB auth_user && should_auth req then
      MiddlewareResult.shortCircuit redirect_to_auth
    else
      MiddlewareResult.passThrough auth_user

/-- The query parameters of the callback endpoint. -/
structure AuthQuery where
  code : String
  state : String
deriving DecidableEq, Repr

/-- A call the callback handler performs on the OpenID client. -/
inductive ClientCall where
  | getToken (code : String)
  | verifyIdToken (id_token : String) (nonce : String)
deriving DecidableEq, Repr

/-- The success response of the callback handler (lines 248-291): a 302
redirect to `state` carrying the `access_token`, `user_info` and
`id_token` cookies, plus a `refresh_token` cookie exactly when the
exchange returned one. -/
def auth_success_response (query : AuthQuery) (tkn : TokenResponse)
    (claim : UserInfoClaims) : HttpResponse :=
  let base : List Cookie :=
    [ { name := "access_token", value := tkn.access_token,
        same_site_lax := true, secure := true },
      { name := "user_info", value := serde_json_to_string claim,
        same_site_lax := true },
      { name := "id_token", value := tkn.id_token,
        same_site_lax := true, secure := true } ]
  let cookies : List Cookie :=
    match tkn.refresh_token with
    | some refresh_token =>
      base ++ [{ name := "refresh_token", value := refresh_token,
                 same_site_lax := true, secure := true }]
    | none => base
  { status := 302, headers := [("Location", query.state)],
    cookies := cookies, body := "" }

/-- `auth_endpoint` (`GET /auth_callback`, lines 217-291): read the
`nonce` cookie (400 if absent); exchange the code (a provider failure is
returned as an `Ok` 400 response carrying the provider's error text);
verify the ID token against the cookie nonce (failure maps to a 500
error); on success respond with `auth_success_response`.  The second
component records the client calls performed, in order. -/
def auth_endpoint (client : OpenID) (req : Request) (query : AuthQuery) :
    Except ActixError HttpResponse × List ClientCall :=
  match req.cookie "nonce" with
  | none => (Except.error (ActixError.badRequest "No nonce"), [])
  | some nonce =>
    match client.get_token query.code with
    | Except.error e =>
      (Except.ok { status := 400, headers := [], cookies := [], body := e },
       [ClientCall.getToken query.code])
    | Except.ok tkn =>
      match client.verify_id_token tkn.id_token nonce with
      | Except.error _ =>
        (Except.error (ActixError.internalServerError "invalid id token"),
         [ClientCall.getToken query.code, ClientCall.verifyIdToken tkn.id_token nonce])
      | Except.ok claim =>
        (Except.ok (auth_success_response query tkn claim),
         [ClientCall.getToken query.code, ClientCall.verifyIdToken tkn.id_token nonce])

/-- Outcome of the logout handler; `panik` models the unguarded
`.unwrap()` on `IdToken::from_str` at line 211 firing. -/
inductive LogoutOutcome where
  | ok (resp : HttpResponse)
  | err (e : ActixError)
  | panik
deriving DecidableEq, Repr

/-- `logout_endpoint` (`GET /logout`, lines 199-215): read the
`id_token` cookie (400 if absent); parse it (`unwrap`, so a parse
failure panics); respond 302 to the logout URI built from the token. -/
def logout_endpoint (client : OpenID) (req : Request) : LogoutOutcome :=
  match req.cookie "id_token" with
  | none => LogoutOutcome.err (ActixError.badRequest "missing id token")
  | some id_token =>
    match client.id_token_from_str id_token with
    | none => LogoutOutcome.panik
    | some tok =>
      LogoutOutcome.ok { status := 302,
                         headers := [("Location", client.get_logout_uri tok)],
                         cookies := [], body := "" }

/-- `impl FromRequest for Authenticated` (lines 295-310).  The argument
is the value found in the request extensions, `none` when the
middleware never ran on this route. -/
def Authenticated.from_request (ext : Option (Except AuthError AuthenticatedUser)) :
    Except ActixError AuthenticatedUser :=
  match ext with
  | some (Except.ok v) => Except.ok v
  | some (Except.error e) => Except.error (ActixError.fromAuth e)
  | none => Except.error (ActixError.unauthorized "Unauthorized")

/-- `impl FromRequest for MaybeAuthenticated` (lines 322-336). -/
def MaybeAuthenticated.from_request (ext : Option (Except AuthError AuthenticatedUser)) :
    Except ActixError (Except AuthError AuthenticatedUser) :=
  match ext with
  | some v => Except.ok v
  | none => Except.error (ActixError.unauthorized "Unauthorized")

/-- `impl Into<Option<&AuthenticatedUser>> for &MaybeAuthenticated`
(lines 338-345). -/
def MaybeAuthenticated.intoOption (m : Except AuthError AuthenticatedUser) :
    Option AuthenticatedUser :=
  match m with
  | Except.ok v => some v
  | Except.error _ => none

/-- `impl TryInto<&AuthenticatedUser> for &MaybeAuthenticated`
(lines 347-356). -/
def MaybeAuthenticated.tryIntoUser (m : Except AuthError AuthenticatedUser) :
    Except ActixError AuthenticatedUser :=
  match m with
  | Except.ok v => Except.ok v
  | Except.error e => Except.error (ActixError.fromAuth e)

/-- A concrete client used to instantiate theorems with hypotheses. -/
def testClient : OpenID :=
  { get_authorization_url := fun path =>
      { url := "https://issuer.example/authorize?redirect=" ++ path
        nonce := "nonce-for-" ++ path }
    user_info := fun token =>
      if token == "good-token" then Except.ok { sub := "u1" }
      else Except.error "invalid access token"
    get_token := fun code =>
      if code == "C" then
        Except.ok { access_token := "at-1", id_token := "idt-1",
                    refresh_token := some "rt-1" }
      else Except.error "invalid code"
    verify_id_token := fun idt nonce =>
      if idt == "idt-1" && nonce == "n1" then Except.ok { sub := "u1" }
      else Except.error "nonce mismatch"
    get_logout_uri := fun tok => "https://issuer.example/logout?id=" ++ tok.raw
    id_token_from_str := fun s =>
      if s == "idt-1" then some { raw := "idt-1" } else none }

/-- C1: on a route where `should_auth` holds and no `access_token`
cookie is present, `OpenIdMiddleware::call` short-circuits (the inner
handler is never invoked) with the `NotAuthenticated` error built from
`get_authorization_url`; its response has status 302, a `Location`
header equal to the authorization URL, and a `nonce` cookie with
path "/". -/
theorem middleware_required_no_token_short_circuits
    (client : OpenID) (should_auth : Request → Bool) (req : Request) (au : AuthUrl)
    (hreq : should_auth req = true)
    (hcookie : req.cookie "access_token" = none)
    (hau : client.get_authorization_url req.path = au) :
    OpenIdMiddleware.call client should_auth req
      = MiddlewareResult.shortCircuit (AuthError.notAuthenticated au.url au.nonce) ∧
    (AuthError.error_response (AuthError.notAuthenticated au.url au.nonce)).status = 302 ∧
    (AuthError.error_response (AuthError.notAuthenticated au.url au.nonce)).header "Location"
      = some au.url ∧
    (AuthError.error_response (AuthError.notAuthenticated au.url au.nonce)).cookie "nonce"
      = some { name := "nonce", value := au.nonce, path := some "/" } := by
  subst hau
  refine ⟨?_, rfl, rfl, rfl⟩
  simp [OpenIdMiddleware.call, hcookie, hreq]

/-- C1 witness. -/
theorem middleware_required_no_token_short_circuits_witness :
    OpenIdMiddleware.call testClient (fun _ => true) { path := "/p", cookies := [] }
      = MiddlewareResult.shortCircuit
          (AuthError.notAuthenticated "https://issuer.example/authorize?redirect=/p"
            "nonce-for-/p") ∧
    (AuthError.error_response (AuthError.notAuthenticated
        "https://issuer.example/authorize?redirect=/p" "nonce-for-/p")).status = 302 ∧
    (AuthError.error_response (AuthError.notAuthenticated
        "https://issuer.example/authorize?redirect=/p" "nonce-for-/p")).header "Location"
      = some "https://issuer.example/authorize?redirect=/p" ∧
    (AuthError.error_response (AuthError.notAuthenticated
        "https://issuer.example/authorize?redirect=/p" "nonce-for-/p")).cookie "nonce"
      = some { name := "nonce", value := "nonce-for-/p", path := some "/" } :=
  middleware_required_no_token_short_circuits testClient (fun _ => true)
    { path := "/p", cookies := [] } (testClient.get_authorization_url "/p") rfl rfl rfl

/-- C2: the mandatory accessor yields an identity only if the attached
outcome is `Ok`; an attached `ChallengeRequired` outcome fails with
that same redirect-carrying error; a missing outcome fails with a
generic unauthorized error, which is distinct from the challenge
case. -/
theorem authenticated_extractor_sound
    (ext : Option (Except AuthError AuthenticatedUser)) :
    (∀ v, Authenticated.from_request ext = Except.ok v → ext = some (Except.ok v)) ∧
    (∀ e, ext = some (Except.error e) →
       Authenticated.from_request ext = Except.error (ActixError.fromAuth e)) ∧
    (ext = none →
       Authenticated.from_request ext
         = Except.error (ActixError.unauthorized "Unauthorized")) ∧
    (∀ e msg, ActixError.unauthorized msg ≠ ActixError.fromAuth e) := by
  refine ⟨?_, ?_, ?_, ?_⟩
  · intro v h
    cases ext with
    | none => simp [Authenticated.from_request] at h
    | some o =>
      cases o with
      | ok w => simp [Authenticated.from_request] at h; simp [h]
      | error e => simp [Authenticated.from_request] at h
  · intro e h
    subst h
    rfl
  · intro h
    subst h
    rfl
  · intro e msg h
    cases h

/-- C2 witness. -/
theorem authenticated_extractor_sound_witness :
    Authenticated.from_request (some (Except.error (AuthError.notAuthenticated "u" "n")))
      = Except.error (ActixError.fromAuth (AuthError.notAuthenticated "u" "n")) ∧
    Authenticated.from_request none
      = Except.error (ActixError.unauthorized "Unauthorized") :=
  ⟨(authenticated_extractor_sound
      (some (Except.error (AuthError.notAuthenticated "u" "n")))).2.1
      (AuthError.notAuthenticated "u" "n") rfl,
   (authenticated_extractor_sound none).2.2.1 rfl⟩

/-- C5: a callback request lacking the `nonce` cookie yields the 400
`ErrorBadRequest "No nonce"` and performs no client call at all, in
particular no token exchange. -/
theorem callback_missing_nonce_no_exchange
    (client : OpenID) (req : Request) (query : AuthQuery)
    (hn : req.cookie "nonce" = none) :
    auth_endpoint client req query
      = (Except.error (ActixError.badRequest "No nonce"), []) ∧
    (ActixError.badRequest "No nonce").status_code = 400 ∧
    ∀ code, ClientCall.getToken code ∉ (auth_endpoint client req query).2 := by
  refine ⟨?_, rfl, ?_⟩
  · simp [auth_endpoint, hn]
  · intro code
    simp [auth_endpoint, hn]

/-- C5 witness. -/
theorem callback_missing_nonce_no_exchange_witness :
    auth_endpoint testClient { path := "/auth_callback", cookies := [] }
        { code := "C", state := "/orig" }
      = (Except.error (ActixError.badRequest "No nonce"), []) ∧
    (ActixError.badRequest "No nonce").status_code = 400 :=
  ⟨(callback_missing_nonce_no_exchange testClient
      { path := "/auth_callback", cookies := [] } { code := "C", state := "/orig" } rfl).1,
   (callback_missing_nonce_no_exchange testClient
      { path := "/auth_callback", cookies := [] } { code := "C", state := "/orig" } rfl).2.1⟩

/-- C8 counterexample: extracting `MaybeAuthenticated` on a request to
which no authentication outcome was attached does not succeed; it fails
with the generic unauthorized error. -/
theorem maybe_authenticated_unattached_fails :
    MaybeAuthenticated.from_request none
      = Except.error (ActixError.unauthorized "Unauthorized") := rfl

/-- C8 amended: extracting `MaybeAuthenticated` succeeds exactly when
an authentication outcome was attached to the request, yielding that
outcome unchanged; when no outcome was attached it fails with the
generic unauthorized error. -/
theorem maybe_authenticated_succeeds_iff_attached
    (ext : Option (Except AuthError AuthenticatedUser)) :
    (∀ v, ext = some v → MaybeAuthenticated.from_request ext = Except.ok v) ∧
    (ext = none → MaybeAuthenticated.from_request ext
       = Except.error (ActixError.unauthorized "Unauthorized")) := by
  constructor
  · intro v h
    subst h
    rfl
  · intro h
    subst h
    rfl

/-- C8 amended witness. -/
theorem maybe_authenticated_succeeds_iff_attached_witness :
    MaybeAuthenticated.from_request (some (Except.ok ⟨⟨"u1"⟩⟩))
      = Except.ok (Except.ok ⟨⟨"u1"⟩⟩) :=
  (maybe_authenticated_succeeds_iff_attached (some (Except.ok ⟨⟨"u1"⟩⟩))).1
    (Except.ok ⟨⟨"u1"⟩⟩) rfl

/-- C3: a short-circuit challenge carries the URL and the nonce of one
and the same `get_authorization_url` result, its response sets the
`nonce` cookie to exactly that nonce while the `Location` header is
exactly that URL; and the callback handler invokes `verify_id_token`
only with the value of the presented `nonce` cookie. -/
theorem nonce_round_trip
    (client : OpenID) (should_auth : Request → Bool) (req reqCb : Request)
    (query : AuthQuery) (au : AuthUrl) (e : AuthError) (n : String)
    (hau : client.get_authorization_url req.path = au)
    (hsc : OpenIdMiddleware.call client should_auth req = MiddlewareResult.shortCircuit e)
    (hn : reqCb.cookie "nonce" = some n) :
    (e = AuthError.notAuthenticated au.url au.nonce ∧
     (AuthError.error_response e).cookie "nonce"
       = some { name := "nonce", value := au.nonce, path := some "/" } ∧
     (AuthError.error_response e).header "Location" = some au.url) ∧
    (∀ idt non, ClientCall.verifyIdToken idt non ∈ (auth_endpoint client reqCb query).2 →
       non = n) := by
  subst hau
  have he : e = AuthError.notAuthenticated (client.get_authorization_url req.path).url
      (client.get_authorization_url req.path).nonce := by
    simp only [OpenIdMiddleware.call] at hsc
    split at hsc
    · split at hsc
      · cases hsc
        rfl
      · cases hsc
    · split at hsc
      · cases hsc
        rfl
      · cases hsc
  subst he
  refine ⟨⟨rfl, rfl, rfl⟩, ?_⟩
  intro idt non hmem
  cases ht : client.get_token query.code with
  | error e' =>
    simp [auth_endpoint, hn, ht] at hmem
  | ok tkn =>
    cases hv : client.verify_id_token tkn.id_token n with
    | error e' =>
      simp [auth_endpoint, hn, ht, hv] at hmem
      exact hmem.2
    | ok claim =>
      simp [auth_endpoint, hn, ht, hv] at hmem
      exact hmem.2

/-- C3 witness. -/
theorem nonce_round_trip_witness :
    AuthError.notAuthenticated "https://issuer.example/authorize?redirect=/p" "nonce-for-/p"
      = AuthError.notAuthenticated "https://issuer.example/authorize?redirect=/p"
          "nonce-for-/p" ∧
    (AuthError.error_response (AuthError.notAuthenticated
        "https://issuer.example/authorize?redirect=/p" "nonce-for-/p")).cookie "nonce"
      = some { name := "nonce", value := "nonce-for-/p", path := some "/" } ∧
    (AuthError.error_response (AuthError.notAuthenticated
        "https://issuer.example/authorize?redirect=/p" "nonce-for-/p")).header "Location"
      = some "https://issuer.example/authorize?redirect=/p" :=
  (nonce_round_trip testClient (fun _ => true) { path := "/p", cookies := [] }
    { path := "/cb", cookies := [("nonce", "n1")] } { code := "C", state := "/orig" }
    (testClient.get_authorization_url "/p")
    (AuthError.notAuthenticated "https://issuer.example/authorize?redirect=/p"
      "nonce-for-/p")
    "n1" rfl rfl rfl).1

/-- C4: when the nonce cookie is present and both the token exchange
and the ID-token verification succeed, the callback result is the 302
redirect to exactly `state`, carrying in that single response the
`access_token`, `user_info` and `id_token` cookies, and a
`refresh_token` cookie exactly when the exchange returned one. -/
theorem callback_success_sets_cookies
    (client : OpenID) (req : Request) (query : AuthQuery) (n : String)
    (tkn : TokenResponse) (claim : UserInfoClaims)
    (hn : req.cookie "nonce" = some n)
    (ht : client.get_token query.code = Except.ok tkn)
    (hv : client.verify_id_token tkn.id_token n = Except.ok claim) :
    (auth_endpoint client req query).1
      = Except.ok (auth_success_response query tkn claim) ∧
    (auth_success_response query tkn claim).status = 302 ∧
    (auth_success_response query tkn claim).header "Location" = some query.state ∧
    (auth_success_response query tkn claim).cookie "access_token"
      = some { name := "access_token", value := tkn.access_token,
               same_site_lax := true, secure := true } ∧
    (auth_success_response query tkn claim).cookie "user_info"
      = some { name := "user_info", value := serde_json_to_string claim,
               same_site_lax := true } ∧
    (auth_success_response query tkn claim).cookie "id_token"
      = some { name := "id_token", value := tkn.id_token,
               same_site_lax := true, secure := true } ∧
    (∀ rt, tkn.refresh_token = some rt →
       (auth_success_response query tkn claim).cookie "refresh_token"
         = some { name := "refresh_token", value := rt,
                  same_site_lax := true, secure := true }) ∧
    (tkn.refresh_token = none →
       (auth_success_response query tkn claim).cookie "refresh_token" = none) := by
  have hmain : (auth_endpoint client req query).1
      = Except.ok (auth_success_response query tkn claim) := by
    simp [auth_endpoint, hn, ht, hv]
  cases hrt : tkn.refresh_token with
  | some rt =>
    refine ⟨hmain, ?_, ?_, ?_, ?_, ?_, ?_, ?_⟩ <;>
      simp [auth_success_response, hrt, HttpResponse.cookie, HttpResponse.header]
  | none =>
    refine ⟨hmain, ?_, ?_, ?_, ?_, ?_, ?_, ?_⟩ <;>
      simp [auth_success_response, hrt, HttpResponse.cookie, HttpResponse.header]

/-- C4 witness. -/
theorem callback_success_sets_cookies_witness :
    (auth_endpoint testClient { path := "/cb", cookies := [("nonce", "n1")] }
        { code := "C", state := "/orig" }).1
      = Except.ok (auth_success_response { code := "C", state := "/orig" }
          { access_token := "at-1", id_token := "idt-1", refresh_token := some "rt-1" }
          { sub := "u1" }) :=
  (callback_success_sets_cookies testClient
    { path := "/cb", cookies := [("nonce", "n1")] } { code := "C", state := "/orig" }
    "n1"
    { access_token := "at-1", id_token := "idt-1", refresh_token := some "rt-1" }
    { sub := "u1" } rfl rfl rfl).1

/-- C6: with the nonce cookie present, a provider-side exchange failure
yields an `Ok` response of status 400 whose body is the provider's
error text, while an ID-token verification failure yields the 500
`ErrorInternalServerError`; the two status classes differ. -/
theorem callback_failure_status_classes
    (client : OpenID) (req : Request) (query : AuthQuery) (n : String)
    (hn : req.cookie "nonce" = some n) :
    (∀ e, client.get_token query.code = Except.error e →
       (auth_endpoint client req query).1
         = Except.ok { status := 400, headers := [], cookies := [], body := e }) ∧
    (∀ tkn e, client.get_token query.code = Except.ok tkn →
       client.verify_id_token tkn.id_token n = Except.error e →
       (auth_endpoint client req query).1
         = Except.error (ActixError.internalServerError "invalid id token")) ∧
    (ActixError.internalServerError "invalid id token").status_code = 500 ∧
    400 / 100 ≠ 500 / 100 := by
  refine ⟨?_, ?_, rfl, by decide⟩
  · intro e ht
    simp [auth_endpoint, hn, ht]
  · intro tkn e ht hv
    simp [auth_endpoint, hn, ht, hv]

/-- C6 witness. -/
theorem callback_failure_status_classes_witness :
    (auth_endpoint testClient { path := "/cb", cookies := [("nonce", "n1")] }
        { code := "X", state := "/s" }).1
      = Except.ok { status := 400, headers := [], cookies := [],
                    body := "invalid code" } ∧
    (auth_endpoint testClient { path := "/cb", cookies := [("nonce", "bad")] }
        { code := "C", state := "/s" }).1
      = Except.error (ActixError.internalServerError "invalid id token") :=
  ⟨(callback_failure_status_classes testClient
      { path := "/cb", cookies := [("nonce", "n1")] } { code := "X", state := "/s" }
      "n1" rfl).1 "invalid code" rfl,
   (callback_failure_status_classes testClient
      { path := "/cb", cookies := [("nonce", "bad")] } { code := "C", state := "/s" }
      "bad" rfl).2.1
      { access_token := "at-1", id_token := "idt-1", refresh_token := some "rt-1" }
      "nonce mismatch" rfl rfl⟩

/-- C7: on a route where `should_auth` is false, when the access-token
cookie is absent or the user-info lookup fails, the middleware attaches
the `ChallengeRequired` outcome and invokes the inner handler
(`passThrough`), and the optional accessor's projection on that outcome
yields no identity. -/
theorem middleware_optional_attaches_challenge
    (client : OpenID) (should_auth : Request → Bool) (req : Request) (au : AuthUrl)
    (hopt : should_auth req = false)
    (hau : client.get_authorization_url req.path = au)
    (hmiss : req.cookie "access_token" = none ∨
       ∃ t e, req.cookie "access_token" = some t ∧ client.user_info t = Except.error e) :
    OpenIdMiddleware.call client should_auth req
      = MiddlewareResult.passThrough
          (Except.error (AuthError.notAuthenticated au.url au.nonce)) ∧
    MaybeAuthenticated.intoOption
        (Except.error (AuthError.notAuthenticated au.url au.nonce)) = none := by
  subst hau
  refine ⟨?_, rfl⟩
  cases hmiss with
  | inl h => simp [OpenIdMiddleware.call, h, hopt]
  | inr h =>
    obtain ⟨t, e, hc, hu⟩ := h
    simp [OpenIdMiddleware.call, hc, hu, hopt, isErrB]

/-- C7 witness. -/
theorem middleware_optional_attaches_challenge_witness :
    OpenIdMiddleware.call testClient (fun _ => false) { path := "/p", cookies := [] }
      = MiddlewareResult.passThrough
          (Except.error (AuthError.notAuthenticated
            "https://issuer.example/authorize?redirect=/p" "nonce-for-/p")) ∧
    MaybeAuthenticated.intoOption
        (Except.error (AuthError.notAuthenticated
          "https://issuer.example/authorize?redirect=/p" "nonce-for-/p")) = none :=
  middleware_optional_attaches_challenge testClient (fun _ => false)
    { path := "/p", cookies := [] } (testClient.get_authorization_url "/p")
    rfl rfl (Or.inl rfl)

/-- C9: a logout request without the `id_token` cookie fails with the
400 `ErrorBadRequest` and no redirect; with the cookie present and
parseable, the handler responds 302 with `Location` set to the logout
URI the client builds from that token. -/
theorem logout_endpoint_behavior
    (client : OpenID) (req : Request) :
    (req.cookie "id_token" = none →
       logout_endpoint client req
         = LogoutOutcome.err (ActixError.badRequest "missing id token") ∧
       (ActixError.badRequest "missing id token").status_code = 400) ∧
    (∀ v tok, req.cookie "id_token" = some v →
       client.id_token_from_str v = some tok →
       logout_endpoint client req
         = LogoutOutcome.ok { status := 302,
                              headers := [("Location", client.get_logout_uri tok)],
                              cookies := [], body := "" }) := by
  constructor
  · intro h
    exact ⟨by simp [logout_endpoint, h], rfl⟩
  · intro v tok hv htok
    simp [logout_endpoint, hv, htok]

/-- C9 witness. -/
theorem logout_endpoint_behavior_witness :
    logout_endpoint testClient { path := "/logout", cookies := [] }
      = LogoutOutcome.err (ActixError.badRequest "missing id token") ∧
    logout_endpoint testClient { path := "/logout", cookies := [("id_token", "idt-1")] }
      = LogoutOutcome.ok { status := 302,
                           headers := [("Location", testClient.get_logout_uri ⟨"idt-1"⟩)],
                           cookies := [], body := "" } :=
  ⟨((logout_endpoint_behavior testClient { path := "/logout", cookies := [] }).1 rfl).1,
   (logout_endpoint_behavior testClient
      { path := "/logout", cookies := [("id_token", "idt-1")] }).2
      "idt-1" ⟨"idt-1"⟩ rfl rfl⟩

/-- C10: a present but unparseable `id_token` cookie makes the logout
handler hit the unguarded `unwrap` (modelled as `panik`); in particular
it is not mapped to any error response, 400-class or otherwise. -/
theorem logout_unparseable_token_panics
    (client : OpenID) (req : Request) (v : String)
    (hv : req.cookie "id_token" = some v)
    (hp : client.id_token_from_str v = none) :
    logout_endpoint client req = LogoutOutcome.panik ∧
    ∀ e, logout_endpoint client req ≠ LogoutOutcome.err e := by
  have h : logout_endpoint client req = LogoutOutcome.panik := by
    simp [logout_endpoint, hv, hp]
  refine ⟨h, ?_⟩
  intro e hc
  rw [h] at hc
  cases hc

/-- C10 witness. -/
theorem logout_unparseable_token_panics_witness :
    logout_endpoint testClient { path := "/logout", cookies := [("id_token", "garbage")] }
      = LogoutOutcome.panik :=
  (logout_unparseable_token_panics testClient
    { path := "/logout", cookies := [("id_token", "garbage")] } "garbage" rfl rfl).1
